import Mathlib

/-!
Verification of the commit-filter trigger gate and the `PkgPipeline` CDK
construct of this repository.

The trigger gate is the Lambda `handler` (entry `commitFilterFn`): it reads
`process.env.PIPELINE_NAME`, fetches the commit named by the inbound
EventBridge event via `GetCommit`, and starts the pipeline via
`StartPipelineExecution` unless the commit message contains the literal
substring "[skip ci]".  We embed the handler as a pure function from its
inputs (environment value, event, and the responses the two AWS clients
would return) to the list of AWS requests it issues plus its outcome.
-/

/-- JavaScript string-includes: `s.includes(pat)` is an unanchored,
case-sensitive substring test.  Recursion over the haystack list of
characters; `pat.isPrefixOf []` handles the empty haystack (true only for
the empty pattern, matching JS `"".includes("")`). -/
def containsSub (pat : List Char) : List Char → Bool
  | [] => pat.isPrefixOf []
  | a :: t => pat.isPrefixOf (a :: t) || containsSub pat t

/-- `jsIncludes s pat` models the JS expression `s.includes(pat)`. -/
def jsIncludes (s pat : String) : Bool :=
  containsSub pat.data s.data

/-- The marker substring checked by the handler (source line 72). -/
def skipMarker : String :=
  "[skip ci]"

/-- JS falsiness of a `string | undefined` value: `!x` is true exactly when
`x` is `undefined` or the empty string. -/
def jsFalsyStr : Option String → Bool
  | none => true
  | some s => s == ""

/-- The `detail` payload of the CodeCommit referenceCreated event.  The
source interface `CodeCommitReferenceCreated` declares `repositoryName` and
`commitId` and notes "other fields but they don't pertain to this fn";
`otherFields` models those extra fields. -/
structure CodeCommitReferenceCreated where
  repositoryName : String
  commitId : String
  otherFields : List (String × String)
deriving Repr, DecidableEq

/-- The inbound EventBridge event (type
`EventBridgeEvent<"CodeCommitReferenceCreated", ...>`), with the envelope
fields of that type alongside `detail`. -/
structure EventBridgeEvent where
  id : String
  version : String
  account : String
  time : String
  region : String
  resources : List String
  source : String
  detailType : String
  detail : CodeCommitReferenceCreated
deriving Repr, DecidableEq

/-- The commit object of the `GetCommit` response; the handler reads only
its optional `message` field (other SDK fields are never touched). -/
structure Commit where
  message : Option String
deriving Repr, DecidableEq

/-- `GetCommitCommandOutput`: the SDK marks `commit` optional. -/
structure GetCommitOutput where
  commit : Option Commit
deriving Repr, DecidableEq

/-- Input of the `GetCommitCommand` built at source lines 69-71. -/
structure GetCommitInput where
  repositoryName : String
  commitId : String
deriving Repr, DecidableEq

/-- Input of `StartPipelineExecutionCommand`.  The SDK accepts an optional
`name` and an optional `clientRequestToken`; the handler sets only
`name` (source line 75). -/
structure StartPipelineExecutionInput where
  name : Option String
  clientRequestToken : Option String
deriving Repr, DecidableEq

/-- `StartPipelineExecutionCommandOutput` (the handler only logs it). -/
structure StartPipelineExecutionOutput where
  pipelineExecutionId : Option String
deriving Repr, DecidableEq

/-- One outbound AWS request issued by the handler. -/
inductive AwsCall where
  | getCommit (input : GetCommitInput)
  | startPipelineExecution (input : StartPipelineExecutionInput)
deriving Repr, DecidableEq

/-- An exception escaping the handler: either the configuration `Error`
thrown at line 67, or a rejected AWS call propagating uncaught. -/
inductive JsError where
  | configError (msg : String)
  | awsError (msg : String)
deriving Repr, DecidableEq

/-- Responses the two AWS clients would give during one invocation:
`getCommitResp` is what `ccClient.send(GetCommitCommand)` resolves or
rejects with, `startResp` likewise for `cpClient.send`. -/
structure World where
  getCommitResp : Except String GetCommitOutput
  startResp : Except String StartPipelineExecutionOutput
deriving Repr

/-- The skip condition `commit?.message?.includes("[skip ci]")` of source
line 72: optional chaining yields `undefined` (falsy, so do not skip) when
the commit or its message is absent. -/
def skipOf (out : GetCommitOutput) : Bool :=
  match out.commit with
  | none => false
  | some c =>
    match c.message with
    | none => false
    | some m => jsIncludes m skipMarker

/-- The Lambda `handler` (source lines 59-81) as a pure function: returns
the list of AWS requests issued, in order, and the outcome (`Except.ok`
for a normal return, `Except.error` for an uncaught exception). -/
def handler (pipelineNameEnv : Option String) (event : EventBridgeEvent)
    (w : World) : List AwsCall × Except JsError Unit :=
  if jsFalsyStr pipelineNameEnv then
    ([], .error (.configError "process.env.PIPELINE_NAME is undefined"))
  else
    let pipelineName := pipelineNameEnv.getD ""
    let gcInput : GetCommitInput :=
      ⟨event.detail.repositoryName, event.detail.commitId⟩
    match w.getCommitResp with
    | .error e => ([.getCommit gcInput], .error (.awsError e))
    | .ok out =>
      if skipOf out then
        ([.getCommit gcInput], .ok ())
      else
        let spInput : StartPipelineExecutionInput := ⟨some pipelineName, none⟩
        match w.startResp with
        | .error e =>
          ([.getCommit gcInput, .startPipelineExecution spInput],
            .error (.awsError e))
        | .ok _ =>
          ([.getCommit gcInput, .startPipelineExecution spInput], .ok ())

/-- The StartPipelineExecution requests among a list of issued calls. -/
def startCalls (calls : List AwsCall) : List StartPipelineExecutionInput :=
  calls.filterMap fun c =>
    match c with
    | .startPipelineExecution i => some i
    | _ => none

/-- Two invocations of the handler on the same event.  The handler keeps no
state between invocations (the module scope holds only the two SDK
clients), so a replay is the same pure function applied again; the combined
request trace is the concatenation. -/
def handlerTwice (pipelineNameEnv : Option String) (event : EventBridgeEvent)
    (w : World) : List AwsCall :=
  (handler pipelineNameEnv event w).1 ++ (handler pipelineNameEnv event w).1

/-- Helper: when the skip condition holds, the handler issues only the
GetCommit request and returns normally. -/
theorem handler_of_skip (p : String) (hp : p ≠ "") (e : EventBridgeEvent)
    (w : World) (out : GetCommitOutput) (hw : w.getCommitResp = .ok out)
    (hskip : skipOf out = true) :
    startCalls (handler (some p) e w).1 = [] ∧
      (handler (some p) e w).2 = .ok () := by
  simp [handler, jsFalsyStr, hp, hw, hskip, startCalls]

/-- Helper: when the skip condition fails, the handler issues exactly one
start request, carrying only the pipeline name. -/
theorem handler_of_not_skip (p : String) (hp : p ≠ "")
    (e : EventBridgeEvent) (w : World) (out : GetCommitOutput)
    (hw : w.getCommitResp = .ok out) (hskip : skipOf out = false) :
    startCalls (handler (some p) e w).1 =
      [{ name := some p, clientRequestToken := none }] := by
  cases hsp : w.startResp <;>
    simp [handler, jsFalsyStr, hp, hw, hskip, hsp, startCalls]

/-- Claim C1: if the fetched commit metadata has a message containing the
literal substring "[skip ci]", the handler issues zero
StartPipelineExecution requests and returns successfully. -/
theorem skip_marker_no_start (p : String) (hp : p ≠ "")
    (e : EventBridgeEvent) (w : World) (out : GetCommitOutput) (c : Commit)
    (m : String) (hw : w.getCommitResp = .ok out) (hc : out.commit = some c)
    (hm : c.message = some m) (hincl : jsIncludes m skipMarker = true) :
    startCalls (handler (some p) e w).1 = [] ∧
      (handler (some p) e w).2 = .ok () :=
  handler_of_skip p hp e w out hw (by simp [skipOf, hc, hm, hincl])

/-- Witness for C1 at a concrete invocation. -/
theorem skip_marker_no_start_witness :
    startCalls (handler (some "my-pipeline")
        ⟨"1", "0", "a", "t", "r", [], "aws.codecommit", "ref", ⟨"r1", "c1", []⟩⟩
        ⟨.ok ⟨some ⟨some "chore(release): 1.2.0 [skip ci]"⟩⟩, .ok ⟨none⟩⟩).1 = [] ∧
      (handler (some "my-pipeline")
        ⟨"1", "0", "a", "t", "r", [], "aws.codecommit", "ref", ⟨"r1", "c1", []⟩⟩
        ⟨.ok ⟨some ⟨some "chore(release): 1.2.0 [skip ci]"⟩⟩, .ok ⟨none⟩⟩).2 = .ok () :=
  skip_marker_no_start "my-pipeline" (by decide) _ _
    ⟨some ⟨some "chore(release): 1.2.0 [skip ci]"⟩⟩
    ⟨some "chore(release): 1.2.0 [skip ci]"⟩ "chore(release): 1.2.0 [skip ci]"
    rfl rfl rfl (by decide)

/-- Claim C2: if the fetched commit message does not contain "[skip ci]" —
including an absent commit, an absent message, or the empty string — the
handler issues exactly one StartPipelineExecution request whose `name` is
the configured pipeline name and whose other parameter
(`clientRequestToken`) is unset. -/
theorem no_marker_single_start (p : String) (hp : p ≠ "")
    (e : EventBridgeEvent) (w : World) (out : GetCommitOutput)
    (hw : w.getCommitResp = .ok out) (hskip : skipOf out = false) :
    startCalls (handler (some p) e w).1 =
      [{ name := some p, clientRequestToken := none }] :=
  handler_of_not_skip p hp e w out hw hskip

/-- Witness for C2 at a concrete invocation with an absent message
(fail-open on missing data). -/
theorem no_marker_single_start_witness :
    startCalls (handler (some "my-pipeline")
        ⟨"1", "0", "a", "t", "r", [], "aws.codecommit", "ref", ⟨"r1", "c1", []⟩⟩
        ⟨.ok ⟨some ⟨none⟩⟩, .ok ⟨none⟩⟩).1 =
      [{ name := some "my-pipeline", clientRequestToken := none }] :=
  no_marker_single_start "my-pipeline" (by decide) _ _ ⟨some ⟨none⟩⟩ rfl (by decide)

/-- Claim C3: if PIPELINE_NAME is unset or the empty string, the handler
throws the configuration error having issued no AWS request at all: no
GetCommit and no StartPipelineExecution. -/
theorem missing_pipeline_name_config_error (pn : Option String)
    (e : EventBridgeEvent) (w : World) (h : pn = none ∨ pn = some "") :
    handler pn e w =
      ([], .error (.configError "process.env.PIPELINE_NAME is undefined")) := by
  rcases h with h | h <;> subst h <;> simp [handler, jsFalsyStr]

/-- Witness for C3 at a concrete invocation with the variable unset. -/
theorem missing_pipeline_name_config_error_witness :
    handler none
        ⟨"1", "0", "a", "t", "r", [], "aws.codecommit", "ref", ⟨"r1", "c1", []⟩⟩
        ⟨.ok ⟨some ⟨some "feat: add x"⟩⟩, .ok ⟨none⟩⟩ =
      ([], .error (.configError "process.env.PIPELINE_NAME is undefined")) :=
  missing_pipeline_name_config_error none _ _ (Or.inl rfl)

/-- Claim C4: if the GetCommit lookup fails, the handler issues zero
StartPipelineExecution requests and the failure propagates uncaught. -/
theorem getcommit_failure_no_start (p : String) (hp : p ≠ "")
    (e : EventBridgeEvent) (w : World) (err : String)
    (hw : w.getCommitResp = .error err) :
    startCalls (handler (some p) e w).1 = [] ∧
      (handler (some p) e w).2 = .error (.awsError err) := by
  simp [handler, jsFalsyStr, hp, hw, startCalls]

/-- Witness for C4 at a concrete invocation with a failing lookup. -/
theorem getcommit_failure_no_start_witness :
    startCalls (handler (some "my-pipeline")
        ⟨"1", "0", "a", "t", "r", [], "aws.codecommit", "ref", ⟨"r1", "c1", []⟩⟩
        ⟨.error "CommitDoesNotExistException", .ok ⟨none⟩⟩).1 = [] ∧
      (handler (some "my-pipeline")
        ⟨"1", "0", "a", "t", "r", [], "aws.codecommit", "ref", ⟨"r1", "c1", []⟩⟩
        ⟨.error "CommitDoesNotExistException", .ok ⟨none⟩⟩).2 =
        .error (.awsError "CommitDoesNotExistException") :=
  getcommit_failure_no_start "my-pipeline" (by decide) _ _
    "CommitDoesNotExistException" rfl

/-- A list is a Boolean prefix of itself followed by anything. -/
theorem isPrefixOf_append_self (l t : List Char) :
    l.isPrefixOf (l ++ t) = true := by
  induction l with
  | nil => simp [List.isPrefixOf]
  | cons a as ih => simp [List.isPrefixOf, ih]

/-- `containsSub` finds its pattern at the head of the haystack. -/
theorem containsSub_append_left (pat post : List Char) :
    containsSub pat (pat ++ post) = true := by
  cases pat with
  | nil => cases post <;> simp [containsSub, List.isPrefixOf]
  | cons a t => simp [containsSub, isPrefixOf_append_self]

/-- `containsSub` finds its pattern anywhere inside the haystack. -/
theorem containsSub_append (pre pat post : List Char) :
    containsSub pat (pre ++ (pat ++ post)) = true := by
  induction pre with
  | nil => simpa using containsSub_append_left pat post
  | cons a t ih => simp [containsSub, ih]

/-- Claim C5: the marker check is a case-sensitive, unanchored substring
match.  A message containing "[SKIP CI]" but not the exact lowercase
"[skip ci]" is not skipped (one start request); a message with "[skip ci]"
embedded anywhere inside longer text, with no word boundary, is skipped
(zero start requests). -/
theorem marker_match_case_sensitive_substring (p : String) (hp : p ≠ "")
    (e : EventBridgeEvent) (w : World) (c : Commit) (m : String)
    (hw : w.getCommitResp = .ok ⟨some c⟩) (hm : c.message = some m) :
    (jsIncludes m "[SKIP CI]" = true → jsIncludes m skipMarker = false →
      startCalls (handler (some p) e w).1 =
        [{ name := some p, clientRequestToken := none }]) ∧
    (∀ pre post : String, m = pre ++ (skipMarker ++ post) →
      startCalls (handler (some p) e w).1 = []) := by
  constructor
  · intro _ hnot
    exact handler_of_not_skip p hp e w ⟨some c⟩ hw
      (by simp [skipOf, hm, hnot])
  · intro pre post hembed
    have hincl : jsIncludes m skipMarker = true := by
      subst hembed
      show containsSub skipMarker.data (pre ++ (skipMarker ++ post)).data = true
      have hdata : (pre ++ (skipMarker ++ post)).data =
          pre.data ++ (skipMarker.data ++ post.data) := by
        simp [String.data_append]
      rw [hdata]
      exact containsSub_append pre.data skipMarker.data post.data
    exact (handler_of_skip p hp e w ⟨some c⟩ hw
      (by simp [skipOf, hm, hincl])).1

/-- Witness for C5 at concrete invocations: the uppercase variant
"docs: update [SKIP CI]" triggers a start, while "chore1.2.0[skip ci]x"
with the marker embedded mid-text is skipped. -/
theorem marker_match_case_sensitive_substring_witness :
    (startCalls (handler (some "my-pipeline")
        ⟨"1", "0", "a", "t", "r", [], "aws.codecommit", "ref", ⟨"r1", "c1", []⟩⟩
        ⟨.ok ⟨some ⟨some "docs: update [SKIP CI]"⟩⟩, .ok ⟨none⟩⟩).1 =
      [{ name := some "my-pipeline", clientRequestToken := none }]) ∧
    (startCalls (handler (some "my-pipeline")
        ⟨"1", "0", "a", "t", "r", [], "aws.codecommit", "ref", ⟨"r2", "c2", []⟩⟩
        ⟨.ok ⟨some ⟨some "chore1.2.0[skip ci]x"⟩⟩, .ok ⟨none⟩⟩).1 = []) :=
  ⟨(marker_match_case_sensitive_substring "my-pipeline" (by decide) _ _
      ⟨some "docs: update [SKIP CI]"⟩ "docs: update [SKIP CI]" rfl rfl).1
      (by decide) (by decide),
   (marker_match_case_sensitive_substring "my-pipeline" (by decide) _ _
      ⟨some "chore1.2.0[skip ci]x"⟩ "chore1.2.0[skip ci]x" rfl rfl).2
      "chore1.2.0" "x" (by decide)⟩

/-- Claim C6: for every environment value, event, and pair of AWS
responses, the handler issues at most one StartPipelineExecution request;
no execution path issues two or more. -/
theorem at_most_one_start (pn : Option String) (e : EventBridgeEvent)
    (w : World) : (startCalls (handler pn e w).1).length ≤ 1 := by
  rcases w with ⟨gc, sp⟩
  cases hf : jsFalsyStr pn <;> cases gc <;> cases sp <;>
    simp [handler, hf, startCalls] <;> split <;> simp

/-- Claim C7: the handler's behaviour depends only on the event's
`detail.repositoryName` and `detail.commitId` (plus configuration and the
metadata response): two events agreeing on those two fields produce
identical request traces and outcomes; all other event fields are
ignored. -/
theorem behavior_depends_only_on_detail_fields (pn : Option String)
    (e₁ e₂ : EventBridgeEvent) (w : World)
    (hr : e₁.detail.repositoryName = e₂.detail.repositoryName)
    (hc : e₁.detail.commitId = e₂.detail.commitId) :
    handler pn e₁ w = handler pn e₂ w := by
  simp only [handler, hr, hc]

/-- Witness for C7: two events agreeing only on the two detail fields,
with every other field (including extra detail fields) different. -/
theorem behavior_depends_only_on_detail_fields_witness :
    handler (some "my-pipeline")
        ⟨"1", "0", "acctA", "t1", "us-east-1", ["arnA"], "aws.codecommit",
          "CodeCommit Repository State Change",
          ⟨"r1", "c1", [("referenceType", "branch")]⟩⟩
        ⟨.ok ⟨some ⟨some "feat: add x"⟩⟩, .ok ⟨none⟩⟩ =
      handler (some "my-pipeline")
        ⟨"2", "1", "acctB", "t2", "eu-west-1", [], "other.source", "other",
          ⟨"r1", "c1", [("extra", "field")]⟩⟩
        ⟨.ok ⟨some ⟨some "feat: add x"⟩⟩, .ok ⟨none⟩⟩ :=
  behavior_depends_only_on_detail_fields (some "my-pipeline") _ _ _ rfl rfl

/-- Claim C8: the gate is not idempotent and keeps no state across
invocations: replaying the same non-skip event through a second invocation
yields two StartPipelineExecution requests in total, exactly one per
invocation. -/
theorem replay_two_starts (p : String) (hp : p ≠ "")
    (e : EventBridgeEvent) (w : World) (out : GetCommitOutput)
    (hw : w.getCommitResp = .ok out) (hskip : skipOf out = false) :
    (startCalls (handlerTwice (some p) e w)).length = 2 ∧
      (startCalls (handler (some p) e w).1).length = 1 := by
  have h1 := handler_of_not_skip p hp e w out hw hskip
  constructor
  · unfold handlerTwice startCalls
    unfold startCalls at h1
    simp [List.filterMap_append, h1]
  · rw [h1]
    rfl

/-- Witness for C8 at a concrete replayed invocation. -/
theorem replay_two_starts_witness :
    (startCalls (handlerTwice (some "my-pipeline")
        ⟨"1", "0", "a", "t", "r", [], "aws.codecommit", "ref", ⟨"r1", "c1", []⟩⟩
        ⟨.ok ⟨some ⟨some "feat: add x"⟩⟩, .ok ⟨none⟩⟩)).length = 2 ∧
      (startCalls (handler (some "my-pipeline")
        ⟨"1", "0", "a", "t", "r", [], "aws.codecommit", "ref", ⟨"r1", "c1", []⟩⟩
        ⟨.ok ⟨some ⟨some "feat: add x"⟩⟩, .ok ⟨none⟩⟩).1).length = 1 :=
  replay_two_starts "my-pipeline" (by decide) _ _ ⟨some ⟨some "feat: add x"⟩⟩
    rfl (by decide)

/-- A per-stage command override of `PkgPipelineProps` (the shape of
`lintCommands` / `testCommands` / `releaseCommands`): four optional phase
command lists. -/
structure CommandSetProps where
  install : Option (List String)
  pre_build : Option (List String)
  build : Option (List String)
  post_build : Option (List String)
deriving Repr, DecidableEq

/-- The `PkgPipelineProps` interface, in declaration order.  `buildImage`
and `computeType` are enum-valued settings the construct only forwards to
the build environments, modelled as opaque optional tokens.  The three
CodeArtifact strings are required by the TypeScript type, but the runtime
guard `!x` also covers `undefined`, so they are modelled as optional. -/
structure PkgPipelineProps where
  buildImage : Option String
  codeArtifactDomain : Option String
  codeArtifactRepo : Option String
  codeArtifactNamespace : Option String
  computeType : Option String
  lintCommands : Option CommandSetProps
  testCommands : Option CommandSetProps
  releaseCommands : Option CommandSetProps
  globalInstallCommands : Option (List String)
  globalPreBuildCommands : Option (List String)
  name : String
  repoDescription : Option String
  releaseBranch : Option String
deriving Repr, DecidableEq

/-- JS template-literal interpolation of a `string | undefined` value
(an `undefined` interpolates as the text "undefined"). -/
def jsTemplateStr : Option String → String
  | none => "undefined"
  | some s => s

/-- The default `globalInstallCommands` built during destructuring
(source lines 131-134). -/
def defaultGlobalInstallCommands (props : PkgPipelineProps) : List String :=
  ["npm install -g npm@7",
    "aws codeartifact login --tool npm --domain " ++
      jsTemplateStr props.codeArtifactDomain ++ " --repository " ++
      jsTemplateStr props.codeArtifactRepo ++ " --namespace " ++
      jsTemplateStr props.codeArtifactNamespace]

/-- `globalInstallCommands` after destructuring defaults. -/
def resolvedGlobalInstallCommands (props : PkgPipelineProps) : List String :=
  props.globalInstallCommands.getD (defaultGlobalInstallCommands props)

/-- `globalPreBuildCommands` after destructuring defaults
(source line 135). -/
def resolvedGlobalPreBuildCommands (props : PkgPipelineProps) : List String :=
  props.globalPreBuildCommands.getD ["npm install"]

/-- Source line 145: `const defaultBuildCommands = ["npm run build"]`. -/
def defaultBuildCommands : List String :=
  ["npm run build"]

/-- Source line 146: `const defaultLintCommands = ["npm run lint"]`. -/
def defaultLintCommands : List String :=
  ["npm run lint"]

/-- Source line 147:
`const defaultReleaseCommands = ["npx semantic-release"]`. -/
def defaultReleaseCommands : List String :=
  ["npx semantic-release"]

/-- Source line 148: `const defaultTestCommands = ["npm run test"]`. -/
def defaultTestCommands : List String :=
  ["npm run test"]

/-- Body of the `for (const cmd of commands)` loop (source lines 168-171):
fill a missing `install` from the global install commands and a missing
`pre_build` from the global pre-build commands.  (A present-but-empty
array is truthy in JS and is kept.) -/
def fillGlobalDefaults (cmd : CommandSetProps) (gi gp : List String) :
    CommandSetProps :=
  let cmd := if cmd.install.isNone then { cmd with install := some gi } else cmd
  if cmd.pre_build.isNone then { cmd with pre_build := some gp } else cmd

/-- The three command sets after all defaulting of the constructor. -/
structure ResolvedCommands where
  lintCommands : CommandSetProps
  testCommands : CommandSetProps
  releaseCommands : CommandSetProps
deriving Repr, DecidableEq

/-- The command-set defaulting of the constructor (source lines 145-176):
destructuring defaults for wholly absent sets, then the loop filling
`install`/`pre_build`, then the per-set `build` and release `post_build`
fixups. -/
def resolveCommandSets (props : PkgPipelineProps) : ResolvedCommands :=
  let gi := resolvedGlobalInstallCommands props
  let gp := resolvedGlobalPreBuildCommands props
  let lint0 := props.lintCommands.getD
    ⟨some gi, some gp, some defaultLintCommands, none⟩
  let release0 := props.releaseCommands.getD
    ⟨some gi, some gp, some defaultBuildCommands, some defaultReleaseCommands⟩
  let test0 := props.testCommands.getD
    ⟨some gi, some gp, some defaultTestCommands, none⟩
  let lint1 := fillGlobalDefaults lint0 gi gp
  let release1 := fillGlobalDefaults release0 gi gp
  let test1 := fillGlobalDefaults test0 gi gp
  let lint2 :=
    if lint1.build.isNone then { lint1 with build := some defaultLintCommands }
    else lint1
  let release2 :=
    if release1.build.isNone then
      { release1 with build := some defaultBuildCommands }
    else release1
  let release3 :=
    if release2.post_build.isNone then
      { release2 with post_build := some defaultReleaseCommands }
    else release2
  let test2 :=
    if test1.build.isNone then { test1 with build := some defaultTestCommands }
    else test1
  ⟨lint2, test2, release3⟩

/-- A CDK resource created by the constructor, in creation order.  Wiring
details not needed by the claims (IAM policy statements, buildspec
contents, the Lambda entry-path resolution) are elided. -/
inductive Resource where
  | repository (repositoryName : String) (description : Option String)
  | lambdaFunction
  | onCommitRule (branches : List String)
  | pipeline (pipelineName : String)
  | stage (stageName : String)
  | cfnOutput (value : String)
deriving Repr, DecidableEq

/-- The `PkgPipeline` constructor (source lines 122-379) as a pure
function: the list of resources created, in order, and either the thrown
error message or the fully defaulted command sets.  The validity check at
lines 140-144 precedes every resource creation, so the error branch
creates nothing. -/
def pkgPipeline (props : PkgPipelineProps) :
    List Resource × Except String ResolvedCommands :=
  if jsFalsyStr props.codeArtifactDomain || jsFalsyStr props.codeArtifactRepo
      || jsFalsyStr props.codeArtifactNamespace then
    ([],
      .error
        "codeArtifactDomain, codeArtifactRepo, and codeArtifactNamespace must be defined")
  else
    ([.repository props.name props.repoDescription,
      .lambdaFunction,
      .onCommitRule ["main"],
      .pipeline props.name,
      .stage "Source", .stage "Lint", .stage "Test", .stage "Publish",
      .cfnOutput props.name],
      .ok (resolveCommandSets props))

/-- After the loop body, every command set carries an `install` list:
the given one, else the global install commands. -/
theorem fillGlobalDefaults_eq (g : CommandSetProps) (gi gp : List String) :
    fillGlobalDefaults g gi gp =
      ⟨some (g.install.getD gi), some (g.pre_build.getD gp), g.build,
        g.post_build⟩ := by
  rcases g with ⟨i, p, b, post⟩
  cases i <;> cases p <;> simp [fillGlobalDefaults]

/-- The resolved lint command set, phase by phase. -/
theorem resolveCommandSets_lint (props : PkgPipelineProps) :
    (resolveCommandSets props).lintCommands =
      ⟨some ((props.lintCommands.bind (fun c => c.install)).getD
          (resolvedGlobalInstallCommands props)),
        some ((props.lintCommands.bind (fun c => c.pre_build)).getD
          (resolvedGlobalPreBuildCommands props)),
        some ((props.lintCommands.bind (fun c => c.build)).getD
          defaultLintCommands),
        props.lintCommands.bind (fun c => c.post_build)⟩ := by
  rcases hl : props.lintCommands with _ | ⟨i, p, b, post⟩
  · simp [resolveCommandSets, hl, fillGlobalDefaults_eq]
  · cases b <;> simp [resolveCommandSets, hl, fillGlobalDefaults_eq]

/-- The resolved test command set, phase by phase. -/
theorem resolveCommandSets_test (props : PkgPipelineProps) :
    (resolveCommandSets props).testCommands =
      ⟨some ((props.testCommands.bind (fun c => c.install)).getD
          (resolvedGlobalInstallCommands props)),
        some ((props.testCommands.bind (fun c => c.pre_build)).getD
          (resolvedGlobalPreBuildCommands props)),
        some ((props.testCommands.bind (fun c => c.build)).getD
          defaultTestCommands),
        props.testCommands.bind (fun c => c.post_build)⟩ := by
  rcases ht : props.testCommands with _ | ⟨i, p, b, post⟩
  · simp [resolveCommandSets, ht, fillGlobalDefaults_eq]
  · cases b <;> simp [resolveCommandSets, ht, fillGlobalDefaults_eq]

/-- The resolved release command set, phase by phase. -/
theorem resolveCommandSets_release (props : PkgPipelineProps) :
    (resolveCommandSets props).releaseCommands =
      ⟨some ((props.releaseCommands.bind (fun c => c.install)).getD
          (resolvedGlobalInstallCommands props)),
        some ((props.releaseCommands.bind (fun c => c.pre_build)).getD
          (resolvedGlobalPreBuildCommands props)),
        some ((props.releaseCommands.bind (fun c => c.build)).getD
          defaultBuildCommands),
        some ((props.releaseCommands.bind (fun c => c.post_build)).getD
          defaultReleaseCommands)⟩ := by
  rcases hr : props.releaseCommands with _ | ⟨i, p, b, post⟩
  · simp [resolveCommandSets, hr, fillGlobalDefaults_eq]
  · cases b <;> cases post <;> simp [resolveCommandSets, hr, fillGlobalDefaults_eq]

/-- Claim C9: the constructor throws its `Error` when any of the three
CodeArtifact strings is absent or empty, creating no resource at all: the
created-resource trace is empty and the outcome is the thrown message. -/
theorem pkg_pipeline_invalid_props_throws (props : PkgPipelineProps)
    (h : jsFalsyStr props.codeArtifactDomain = true ∨
      jsFalsyStr props.codeArtifactRepo = true ∨
      jsFalsyStr props.codeArtifactNamespace = true) :
    pkgPipeline props =
      ([],
        .error
          "codeArtifactDomain, codeArtifactRepo, and codeArtifactNamespace must be defined") := by
  rcases h with h | h | h <;> simp [pkgPipeline, h]

/-- Witness for C9 at concrete props with an empty repository name. -/
theorem pkg_pipeline_invalid_props_throws_witness :
    pkgPipeline
        ⟨none, some "my-domain", some "", some "@my-namespace", none, none,
          none, none, none, none, "nodejs-pkg-pipeline", none, none⟩ =
      ([],
        .error
          "codeArtifactDomain, codeArtifactRepo, and codeArtifactNamespace must be defined") :=
  pkg_pipeline_invalid_props_throws _ (Or.inr (Or.inl (by decide)))

/-- Claim C10: whenever the constructor succeeds, each of the three command
sets has `install` (the given list, else `globalInstallCommands`),
`pre_build` (the given list, else `globalPreBuildCommands`), and `build`
(the given list, else the per-stage default) defined, and the release set
additionally has `post_build` defined (defaulting to
`["npx semantic-release"]`) — including when the caller supplied a partial
commands object. -/
theorem command_sets_defaulting_complete (props : PkgPipelineProps)
    (r : ResolvedCommands) (h : (pkgPipeline props).2 = .ok r) :
    r.lintCommands.install =
        some ((props.lintCommands.bind (fun c => c.install)).getD
          (resolvedGlobalInstallCommands props)) ∧
      r.lintCommands.pre_build =
        some ((props.lintCommands.bind (fun c => c.pre_build)).getD
          (resolvedGlobalPreBuildCommands props)) ∧
      r.lintCommands.build =
        some ((props.lintCommands.bind (fun c => c.build)).getD
          defaultLintCommands) ∧
      r.testCommands.install =
        some ((props.testCommands.bind (fun c => c.install)).getD
          (resolvedGlobalInstallCommands props)) ∧
      r.testCommands.pre_build =
        some ((props.testCommands.bind (fun c => c.pre_build)).getD
          (resolvedGlobalPreBuildCommands props)) ∧
      r.testCommands.build =
        some ((props.testCommands.bind (fun c => c.build)).getD
          defaultTestCommands) ∧
      r.releaseCommands.install =
        some ((props.releaseCommands.bind (fun c => c.install)).getD
          (resolvedGlobalInstallCommands props)) ∧
      r.releaseCommands.pre_build =
        some ((props.releaseCommands.bind (fun c => c.pre_build)).getD
          (resolvedGlobalPreBuildCommands props)) ∧
      r.releaseCommands.build =
        some ((props.releaseCommands.bind (fun c => c.build)).getD
          defaultBuildCommands) ∧
      r.releaseCommands.post_build =
        some ((props.releaseCommands.bind (fun c => c.post_build)).getD
          defaultReleaseCommands) := by
  have hr : r = resolveCommandSets props := by
    unfold pkgPipeline at h
    split at h
    · simp at h
    · simpa using h.symm
  subst hr
  simp [resolveCommandSets_lint, resolveCommandSets_test,
    resolveCommandSets_release]

/-- Witness for C10 at concrete props with a partial lint override (only
`pre_build` given) and a partial release override (only `install`
given). -/
theorem command_sets_defaulting_complete_witness :
    (resolveCommandSets
          ⟨none, some "my-domain", some "my-repo", some "@my-namespace", none,
            some ⟨none, some ["npm ci"], none, none⟩, none,
            some ⟨some ["npm install -g npm@8"], none, none, none⟩, none, none,
            "nodejs-pkg-pipeline", none, none⟩).lintCommands.install =
        some (resolvedGlobalInstallCommands
          ⟨none, some "my-domain", some "my-repo", some "@my-namespace", none,
            some ⟨none, some ["npm ci"], none, none⟩, none,
            some ⟨some ["npm install -g npm@8"], none, none, none⟩, none, none,
            "nodejs-pkg-pipeline", none, none⟩) ∧
      (resolveCommandSets
          ⟨none, some "my-domain", some "my-repo", some "@my-namespace", none,
            some ⟨none, some ["npm ci"], none, none⟩, none,
            some ⟨some ["npm install -g npm@8"], none, none, none⟩, none, none,
            "nodejs-pkg-pipeline", none, none⟩).lintCommands.pre_build =
        some ["npm ci"] ∧
      (resolveCommandSets
          ⟨none, some "my-domain", some "my-repo", some "@my-namespace", none,
            some ⟨none, some ["npm ci"], none, none⟩, none,
            some ⟨some ["npm install -g npm@8"], none, none, none⟩, none, none,
            "nodejs-pkg-pipeline", none, none⟩).releaseCommands.install =
        some ["npm install -g npm@8"] ∧
      (resolveCommandSets
          ⟨none, some "my-domain", some "my-repo", some "@my-namespace", none,
            some ⟨none, some ["npm ci"], none, none⟩, none,
            some ⟨some ["npm install -g npm@8"], none, none, none⟩, none, none,
            "nodejs-pkg-pipeline", none, none⟩).releaseCommands.post_build =
        some ["npx semantic-release"] := by
  have h := command_sets_defaulting_complete
    ⟨none, some "my-domain", some "my-repo", some "@my-namespace", none,
      some ⟨none, some ["npm ci"], none, none⟩, none,
      some ⟨some ["npm install -g npm@8"], none, none, none⟩, none, none,
      "nodejs-pkg-pipeline", none, none⟩
    (resolveCommandSets
      ⟨none, some "my-domain", some "my-repo", some "@my-namespace", none,
        some ⟨none, some ["npm ci"], none, none⟩, none,
        some ⟨some ["npm install -g npm@8"], none, none, none⟩, none, none,
        "nodejs-pkg-pipeline", none, none⟩) rfl
  exact ⟨h.1, by simpa using h.2.1, by simpa using h.2.2.2.2.2.2.1,
    by simpa using h.2.2.2.2.2.2.2.2.2⟩
